import Mathlib

/-!
Formal model of the Broadway fashion bot (repository `broadway_bot`).

The development shallowly embeds the conversation-orchestration core of the
repository: `fashion_graph.py` (the LangGraph workflow and `ChatSession`),
`conversationService.py` (context folding and intent classification),
`genderService.py`, `vacationService.py` (destination pipeline), and the
follow-up submission path of `main.py`.

External collaborators (the OpenAI chat-completion endpoint, `json.loads`,
and the catalog/recommendation services whose internals no claim touches)
are modelled as an `Oracle` of functions from the semantically relevant call
arguments to `Except String` results; `.error e` models the call raising a
Python exception whose `str()` is `e`.  Python's dynamic values are modelled
by the inductive `PyVal`; Python exceptions are `Except String`.
-/

/-- A Python value, as far as the modelled code can observe it. -/
inductive PyVal where
  | none
  | bool (b : Bool)
  | int (n : Int)
  | str (s : String)
  | list (xs : List PyVal)
  | dict (xs : List (String × PyVal))

/-- Python type name, used in `TypeError`/`AttributeError` messages. -/
def pyTypeName : PyVal → String
  | .none => "NoneType"
  | .bool _ => "bool"
  | .int _ => "int"
  | .str _ => "str"
  | .list _ => "list"
  | .dict _ => "dict"

/-- Python truthiness of a value. -/
def truthy : PyVal → Bool
  | .none => false
  | .bool b => b
  | .int n => n != 0
  | .str s => s != ""
  | .list xs => !xs.isEmpty
  | .dict xs => !xs.isEmpty

/-- Truthiness of an `Optional[str]` field (`None` and `""` are falsy). -/
def truthyOptStr : Option String → Bool
  | Option.none => false
  | some s => s != ""

/-- `d[k] = v` on a Python dict: replace in place, else append (insertion order). -/
def pyDictSet : List (String × PyVal) → String → PyVal → List (String × PyVal)
  | [], k, v => [(k, v)]
  | (k0, v0) :: rest, k, v =>
      if k0 = k then (k0, v) :: rest else (k0, v0) :: pyDictSet rest k v

/-- `d.update(fd)` on a Python dict: per-key last-write-wins. -/
def pyUpdate (d : List (String × PyVal)) (fd : List (String × PyVal)) :
    List (String × PyVal) :=
  fd.foldl (fun acc kv => pyDictSet acc kv.1 kv.2) d

/-- Key lookup in a Python dict (association list, unique keys kept by
`pyDictSet`). -/
def pyLookup : List (String × PyVal) → String → Option PyVal
  | [], _ => Option.none
  | (k0, v0) :: rest, k => if k0 = k then some v0 else pyLookup rest k

/-- Subscript access `v[k]`: `TypeError` on non-dicts, `KeyError` on a missing key. -/
def pyDictGet (v : PyVal) (k : String) : Except String PyVal :=
  match v with
  | .dict d =>
      match pyLookup d k with
      | some x => .ok x
      | Option.none => .error ("\x27" ++ k ++ "\x27")
  | w => .error ("\x27" ++ pyTypeName w ++ "\x27 object is not subscriptable")

/-- Method call `v.get(k, default)`: `AttributeError` on non-dicts. -/
def pyGetD (v : PyVal) (k : String) (default : PyVal) : Except String PyVal :=
  match v with
  | .dict d => .ok ((pyLookup d k).getD default)
  | w => .error ("\x27" ++ pyTypeName w ++ "\x27 object has no attribute \x27get\x27")

/-- Method call `v.get(k)` (default `None`). -/
def pyGet (v : PyVal) (k : String) : Except String PyVal :=
  pyGetD v k PyVal.none

/-- Python `str.lower()` (ASCII case folding). -/
def strLower (s : String) : String :=
  String.mk (s.toList.map Char.toLower)

/-- An ASCII whitespace character, as `str.strip()` removes them. -/
def isPySpace (c : Char) : Bool :=
  c == ' ' || c == '\t' || c == '\n' || c == '\r' || c == '\x0b' || c == '\x0c'

/-- Python `str.strip()` with no argument. -/
def strStrip (s : String) : String :=
  String.mk (((s.toList.dropWhile isPySpace).reverse.dropWhile isPySpace).reverse)

/-- Method call `v.lower()`: `AttributeError` on non-strings. -/
def pyLower (v : PyVal) : Except String String :=
  match v with
  | .str s => .ok (strLower s)
  | w => .error ("\x27" ++ pyTypeName w ++ "\x27 object has no attribute \x27lower\x27")

/-- The character `{`. -/
def lbrace : Char := Char.ofNat 123

/-- The character `}`. -/
def rbrace : Char := Char.ofNat 125

/-- Index of the last occurrence of `c` in `cs` (Python `str.rfind`), if any. -/
def rfindIdx (cs : List Char) (c : Char) : Option Nat :=
  (cs.reverse.indexOf? c).map (fun i => cs.length - 1 - i)

/-- The slice `response[response.find(lbrace) : response.rfind(rbrace) + 1]`, or
`none` when the guard `start_idx != -1 and end_idx != 0` fails.  This brace-slicing
idiom is shared by `understandIntent` (conversationService.py:278-283) and
`_get_popular_locations` (vacationService.py:242-248). -/
def braceSlice (response : String) : Option String :=
  let cs := response.toList
  match cs.indexOf? lbrace, rfindIdx cs rbrace with
  | some i, some j => some (String.mk ((cs.drop i).take (j + 1 - i)))
  | _, _ => Option.none

/-- One follow-up question of the `self.questions` table (fashion_graph.py:41-133);
`qtype` models the `type` key. -/
structure Question where
  key : String
  label : String
  qtype : String
  options : List String

/-- `self.questions["gender"]` (fashion_graph.py:42-47). -/
def question_gender : Question :=
  ⟨"gender", "What\x27s your gender?", "select",
    ["Male", "Female", "Non-binary", "Prefer not to say"]⟩

/-- `self.questions["body_type"]` (fashion_graph.py:48-65). -/
def question_body_type : Question :=
  ⟨"body_type", "What\x27s your body type?", "select",
    ["Pear (wider hips, narrower shoulders)",
     "Apple (broader shoulders, narrower hips)",
     "Hourglass (balanced shoulders and hips, defined waist)",
     "Rectangle (straight up and down, minimal curves)",
     "Inverted Triangle (broad shoulders, narrow hips)",
     "Oval (fuller midsection)",
     "Athletic (muscular, well-defined)",
     "Plus Size", "Petite", "Tall", "Not sure"]⟩

/-- `self.questions["skin_tone"]` (fashion_graph.py:66-83). -/
def question_skin_tone : Question :=
  ⟨"skin_tone", "What\x27s your skin tone?", "select",
    ["Fair (light with pink undertones)",
     "Light (light with neutral undertones)",
     "Medium-Light (light to medium with warm undertones)",
     "Medium (medium with neutral undertones)",
     "Medium-Dark (medium to dark with warm undertones)",
     "Dark (deep with rich undertones)",
     "Deep (very deep with cool or warm undertones)",
     "Warm undertones (yellow/golden base)",
     "Cool undertones (pink/blue base)",
     "Neutral undertones (mix of warm and cool)",
     "Not sure"]⟩

/-- `self.questions["height"]` (fashion_graph.py:84-97). -/
def question_height : Question :=
  ⟨"height", "What\x27s your height range?", "select",
    ["Under 5\x270\x22 (152 cm)",
     "5\x270\x22 - 5\x272\x22 (152-157 cm)",
     "5\x273\x22 - 5\x275\x22 (160-165 cm)",
     "5\x276\x22 - 5\x278\x22 (168-173 cm)",
     "5\x279\x22 - 5\x2711\x22 (175-180 cm)",
     "6\x270\x22 and above (183 cm+)",
     "Prefer not to say"]⟩

/-- `self.questions["style_preferences"]` (fashion_graph.py:98-116). -/
def question_style_preferences : Question :=
  ⟨"style_preferences", "What\x27s your preferred style?", "select",
    ["Classic & Timeless", "Casual & Comfortable", "Business & Professional",
     "Trendy & Fashion-Forward", "Bohemian & Free-Spirited", "Minimalist & Clean",
     "Edgy & Bold", "Romantic & Feminine", "Sporty & Athletic", "Vintage & Retro",
     "Eclectic & Mix-and-Match", "Glamorous & Elegant"]⟩

/-- `self.questions["size_preferences"]` (fashion_graph.py:117-132). -/
def question_size_preferences : Question :=
  ⟨"size_preferences", "What\x27s your usual clothing size?", "select",
    ["XS (Extra Small)", "S (Small)", "M (Medium)", "L (Large)", "XL (Extra Large)",
     "XXL (2X Large)", "XXXL (3X Large)", "Varies by brand", "Prefer not to say"]⟩

/-- Lookup in the `self.questions` table (`if field in self.questions`). -/
def questionFor : String → Option Question
  | "gender" => some question_gender
  | "body_type" => some question_body_type
  | "skin_tone" => some question_skin_tone
  | "height" => some question_height
  | "style_preferences" => some question_style_preferences
  | "size_preferences" => some question_size_preferences
  | _ => Option.none

/-- One entry of an outbound `recommendations` message
(fashion_graph.py:434-443). -/
structure RecItem where
  id : Nat
  product_id : PyVal
  title : PyVal
  brand_name : PyVal
  price : PyVal

/-- One outbound WebSocket message, by its `type` tag (fashion_graph.py:393-447
for the in-graph shapes, fashion_graph.py:591-594 for the session-level error). -/
inductive Msg where
  | intent (message : String) (message_type : String)
  | error (message : String)
  | followup (title : String) (questions : Option (List Question)) (message_type : String)
  | bot_message (message : PyVal) (message_type : String)
  | recommendations (items : List RecItem)

/-- Mutable state of a `ConversationService` instance
(conversationService.py:5-9): `self.recs`, `self.intent`,
`self.conversation_context`. -/
structure ConvState where
  recs : PyVal
  intent : PyVal
  conversation_context : String

/-- `ConversationService.__init__` values. -/
def convInit : ConvState := ⟨.list [], .str "general", ""⟩

/-- The external collaborators: every OpenAI chat call, `json.loads`, and the
recommendation-side services whose internals no claim depends on.  Each
function maps the semantically relevant inputs of the call site to the call's
result; `.error e` models the call raising an exception with `str(e) = e`.
Prompt wording is not modelled. -/
structure Oracle where
  /-- `ConversationService.addToConversation` AI call, from
  (conversation_context, user_input, gender, recs). -/
  summarizeUserAI : String → String → PyVal → PyVal → Except String String
  /-- `ConversationService.understandIntent` AI call, from (user_input, context). -/
  classifyIntentAI : String → String → Except String String
  /-- `ConversationService.endConvo` AI call, from
  (conversation_context, response, recs, gender). -/
  summarizeBotAI : String → PyVal → PyVal → PyVal → Except String String
  /-- `json.loads` from the Python standard library. -/
  jsonLoads : String → Except String PyVal
  /-- `GenderService.getGender` AI call, from (context, query, previous gender). -/
  genderAI : String → String → PyVal → Except String String
  /-- `PairingService.getComplementProducts`, from (user_input, conversation_history). -/
  pairingComplementsAI : String → String → Except String PyVal
  /-- `GeneralService.respond`, from (conversation_history, user_input); returns
  the `(general_message, prods)` pair. -/
  generalRespondAI : String → String → Except String (PyVal × PyVal)
  /-- `VacationService._extract_destination` AI call, from the user query;
  the raw completion content (this `_call_ai` does not catch). -/
  vacationDestAI : String → Except String String
  /-- `VacationService._get_popular_locations` AI call, from
  (destination, user_query, bot_input); the raw completion content. -/
  vacationLocationsAI : String → String → String → Except String String
  /-- `RecommendationService.convert_to_searchable_tags` as called per location
  (vacationService.py:63-68), from (name, weather, style_palette, categories);
  returns the pair `(tag[0], tag[1])` of its 3-tuple that the caller uses. -/
  vacationTagsAI : PyVal → PyVal → PyVal → PyVal → Except String (PyVal × PyVal)
  /-- `RecommendationService.get_complements` as called per location
  (vacationService.py:71), from (tags, categories, name). -/
  vacationComplementsAI : PyVal → PyVal → PyVal → Except String PyVal
  /-- `VacationService.generate_dialogue` AI call, from
  (destination, weather, recommendations). -/
  vacationDialogueAI : PyVal → PyVal → PyVal → Except String String

/-- `ConversationService._call_ai` (conversationService.py:290-301): returns
the completion content, or `""` when the call raises (the `except` branch). -/
def conv_call_ai (r : Except String String) : String :=
  match r with
  | .ok s => s
  | .error _ => ""

/-- `ConversationService.addToConversation` (conversationService.py:30-89):
builds the user-turn fold prompt from the service state and returns
`self._call_ai(prompt)`. -/
def addToConversation (o : Oracle) (cv : ConvState) (user_input : String)
    (gender : PyVal) : String :=
  conv_call_ai (o.summarizeUserAI cv.conversation_context user_input gender cv.recs)

/-- `ConversationService.understandIntent` (conversationService.py:137-287):
the classification call (whose `_call_ai` maps a raised call to `""`), then the
brace slice; without a complete brace-delimited region it returns `"General"`,
otherwise it runs `json.loads` on the slice and subscripts `"reasoning"` (for
the log line) and `"intent"`, so a parse failure or a missing key raises.
`previous_intent` is not read by the active prompt. -/
def understandIntent (o : Oracle) (context : String) (_previous_intent : PyVal)
    (user_input : String) : Except String PyVal :=
  let response := strStrip (conv_call_ai (o.classifyIntentAI user_input context))
  match braceSlice response with
  | some slice =>
      match o.jsonLoads slice with
      | .error e => .error e
      | .ok json_content =>
          match pyDictGet json_content "reasoning" with
          | .error e => .error e
          | .ok _ => pyDictGet json_content "intent"
  | Option.none => .ok (.str "General")

/-- `ConversationService.processTurn` (conversationService.py:17-21): the
user-turn fold result replaces `self.conversation_context` first; then the
classifier runs (its exceptions propagate after the context mutation), sets
`self.intent` and the pair `(self.intent, self.conversation_context)` is
returned. -/
def processTurn (o : Oracle) (cv : ConvState) (user_input : String)
    (gender : PyVal) : ConvState × Except String (PyVal × String) :=
  let ctx := addToConversation o cv user_input gender
  let cv1 : ConvState := { cv with conversation_context := ctx }
  match understandIntent o cv1.conversation_context cv1.intent user_input with
  | .ok intent => ({ cv1 with intent := intent }, .ok (intent, ctx))
  | .error e => (cv1, .error e)

/-- `ConversationService.endConvo` (conversationService.py:91-135): the
bot-turn fold replaces `self.conversation_context` with the AI output
(`""` when the call raised) and returns it. -/
def endConvo (o : Oracle) (cv : ConvState) (response : PyVal) (gender : PyVal) :
    ConvState × String :=
  let out := conv_call_ai (o.summarizeBotAI cv.conversation_context response cv.recs gender)
  ({ cv with conversation_context := out }, out)

/-- `ConversationService.endTurn` (conversationService.py:23-28): stores truthy
`recs` into `self.recs`, then runs the bot-turn fold. -/
def endTurn (o : Oracle) (cv : ConvState) (response : PyVal) (gender : PyVal)
    (recs : PyVal) : ConvState × String :=
  let cv1 := if truthy recs then { cv with recs := recs } else cv
  endConvo o cv1 response gender

/-- `GenderService.getGender` (genderService.py:9-58): one AI call, stripped;
its `_call_ai` does not catch, so a raised call propagates. -/
def getGender (o : Oracle) (context query : String) (gender : PyVal) :
    Except String String :=
  match o.genderAI context query gender with
  | .ok s => .ok (strStrip s)
  | .error e => .error e

/-- The keys of `VacationService.destination_map` (vacationService.py:17-42),
in insertion order. -/
def destination_map_keys : List String :=
  ["goa", "kerala", "rajasthan", "himachal", "kashmir", "uttarakhand",
   "maharashtra", "karnataka", "tamil_nadu", "west_bengal", "andhra_pradesh",
   "odisha", "assam", "meghalaya", "thailand", "bali", "singapore", "dubai",
   "maldives", "nepal", "bhutan", "sri_lanka"]

/-- `alternate_names` of `_keyword_destination_fallback`
(vacationService.py:134-151), in insertion order. -/
def alternate_names : List (String × String) :=
  [("bombay", "maharashtra"), ("mumbai", "maharashtra"), ("delhi", "delhi"),
   ("bangalore", "karnataka"), ("chennai", "tamil_nadu"),
   ("kolkata", "west_bengal"), ("hyderabad", "andhra_pradesh"),
   ("pune", "maharashtra"), ("jaipur", "rajasthan"), ("udaipur", "rajasthan"),
   ("manali", "himachal"), ("shimla", "himachal"),
   ("darjeeling", "west_bengal"), ("ooty", "tamil_nadu"),
   ("munnar", "kerala"), ("rishikesh", "uttarakhand")]

/-- Whether `ys` starts with `xs`. -/
def charsStartWith : List Char → List Char → Bool
  | [], _ => true
  | _ :: _, [] => false
  | x :: xs, y :: ys => x == y && charsStartWith xs ys

/-- Whether `xs` occurs as a contiguous run inside `ys`. -/
def charsOccurIn (xs : List Char) : List Char → Bool
  | [] => charsStartWith xs []
  | y :: ys => charsStartWith xs (y :: ys) || charsOccurIn xs ys

/-- Python `needle in haystack` on strings (substring test). -/
def strContains (haystack needle : String) : Bool :=
  charsOccurIn needle.toList haystack.toList

/-- `VacationService._keyword_destination_fallback` (vacationService.py:124-157):
first substring match among the destination-map keys, then among the alternate
city names; `none` models the Python `None`. -/
def keyword_destination_fallback (user_query : String) : Option String :=
  let user_lower := strLower user_query
  match destination_map_keys.find? (fun d => strContains user_lower d) with
  | some d => some d
  | Option.none =>
      (alternate_names.find? (fun cs => strContains user_lower cs.1)).map (·.2)

/-- `VacationService._extract_destination` (vacationService.py:81-122): the AI
response stripped and lowercased is returned unvalidated (the validation and
the in-line fallback are commented out in the source); only a raised call
falls back to the keyword table. -/
def extract_destination (o : Oracle) (user_query : String) : Option String :=
  match o.vacationDestAI user_query with
  | .ok response => some (strLower (strStrip response))
  | .error _ => keyword_destination_fallback user_query

/-- `str(e)` of the `AttributeError` raised by the `except` branch of
`_get_popular_locations` (vacationService.py:252-254): it calls
`self._get_fallback_destination_info(destination)`, a method that does not
exist anywhere in the class. -/
def fallback_attribute_error : String :=
  "\x27VacationService\x27 object has no attribute \x27_get_fallback_destination_info\x27"

/-- `VacationService._get_popular_locations` (vacationService.py:159-254): AI
call, brace slice, `json.loads`; any failure in that pipeline (including the
explicit `ValueError` when no brace-delimited region is found) enters the
`except` branch, which itself raises `AttributeError` because the fallback
method it invokes is missing. -/
def get_popular_locations (o : Oracle) (destination user_query bot_input : String) :
    Except String PyVal :=
  let attempt : Except String PyVal :=
    match o.vacationLocationsAI destination user_query bot_input with
    | .error e => .error e
    | .ok response =>
        match braceSlice (strStrip response) with
        | some json_content => o.jsonLoads json_content
        | Option.none => .error "No JSON found in response"
  match attempt with
  | .ok v => .ok v
  | .error _ => .error fallback_attribute_error

/-- `beach_destinations` / `mountain_destinations` / `cultural_destinations`
membership of `_get_default_outfit_tags` (vacationService.py:283-297); the
`destination` argument at this call site is the location name `PyVal`. -/
def get_default_outfit_tags (destination : PyVal) : List String :=
  let isIn : List String → Bool := fun ds =>
    match destination with
    | .str s => ds.contains s
    | _ => false
  if isIn ["goa", "maldives", "thailand", "bali"] then
    ["sundresses", "swimwear", "beach cover-ups", "sandals", "sun hats",
     "light shirts", "shorts", "sunglasses"]
  else if isIn ["himachal", "kashmir", "uttarakhand", "nepal", "bhutan"] then
    ["warm jackets", "trekking shoes", "layered clothing", "sweaters", "jeans",
     "beanies", "gloves", "thermal wear"]
  else if isIn ["rajasthan", "kerala", "tamil_nadu", "odisha"] then
    ["modest clothing", "walking shoes", "light scarves", "cotton fabrics",
     "long pants", "covered tops", "comfortable flats"]
  else
    ["comfortable clothing", "walking shoes", "light jackets", "casual wear",
     "sun protection", "breathable fabrics"]

/-- `VacationService.generate_dialogue` (vacationService.py:257-281): the AI
response stripped; a raised call falls back to `_get_default_outfit_tags`,
whose *list* of tags is returned as the dialogue. -/
def generate_dialogue (o : Oracle) (destination weather recs : PyVal) : PyVal :=
  match o.vacationDialogueAI destination weather recs with
  | .ok s => .str (strStrip s)
  | .error _ => .list ((get_default_outfit_tags destination).map PyVal.str)

/-- The per-location loop body of `get_vacation_recommendation`
(vacationService.py:61-77): `.get` chains on the location dict, the tag
conversion (`tag[1] + tag[0]`), complement retrieval, dialogue generation,
and the `{name, products, dialogue}` entry. -/
def vacation_location_entry (o : Oracle) (location : PyVal) :
    Except String PyVal :=
  match pyGet location "name" with
  | .error e => .error e
  | .ok name =>
    match pyGet location "weather" with
    | .error e => .error e
    | .ok weather =>
      match pyGet location "outfit" with
      | .error e => .error e
      | .ok outfit =>
        match pyGet outfit "style_palette" with
        | .error e => .error e
        | .ok palette =>
          match pyGet outfit "categories" with
          | .error e => .error e
          | .ok categories =>
            match o.vacationTagsAI name weather palette categories with
            | .error e => .error e
            | .ok (tag0, tag1) =>
              match tag1, tag0 with
              | .list t1, .list t0 =>
                let tags := PyVal.list (t1 ++ t0)
                match o.vacationComplementsAI tags categories name with
                | .error e => .error e
                | .ok recs =>
                    .ok (.dict [("name", name), ("products", recs),
                                ("dialogue", generate_dialogue o name weather recs)])
              | _, _ => .error "can only concatenate list (not other types) to list"

/-- The `for location in locs` loop of `get_vacation_recommendation`
(vacationService.py:61-77), accumulating `prods`. -/
def vacation_locations_loop (o : Oracle) : List PyVal → Except String (List PyVal)
  | [] => .ok []
  | loc :: rest =>
      match vacation_location_entry o loc with
      | .error e => .error e
      | .ok entry =>
          match vacation_locations_loop o rest with
          | .error e => .error e
          | .ok entries => .ok (entry :: entries)

/-- `VacationService.get_vacation_recommendation` (vacationService.py:44-78):
with no identifiable destination it returns the `{error, suggestion}` dict;
otherwise it fetches the popular-location JSON and returns the *list* `prods`
of per-location `{name, products, dialogue}` dicts.  (The annotated return
type and the single `(dialogue, products)` pair its caller unpacks do not
match this shape.)  Iterating a non-list `locs` raises `TypeError`. -/
def get_vacation_recommendation (o : Oracle) (user_query bot_input : String) :
    Except String PyVal :=
  match extract_destination o user_query with
  | dst =>
    if !truthyOptStr dst then
      .ok (.dict
        [("error", .str "Could not identify destination from your query"),
         ("suggestion", .str "Please mention a specific place like \x27Goa\x27, \x27Kerala\x27, \x27Thailand\x27, etc.")])
    else
      match get_popular_locations o (dst.getD "") user_query bot_input with
      | .error e => .error e
      | .ok popular_locations =>
          match pyGet popular_locations "popular_locations" with
          | .error e => .error e
          | .ok locs =>
              match locs with
              | .list ls =>
                  match vacation_locations_loop o ls with
                  | .error e => .error e
                  | .ok prods => .ok (.list prods)
              | w => .error ("\x27" ++ pyTypeName w ++ "\x27 object is not iterable")

/-- The `FashionState` TypedDict (fashion_graph.py:7-23).  `Optional[str]`
fields are `Option String`; fields whose runtime content is dynamic
(`current_parameters`, `recommendations`, `response_message`,
`confidence_score`) are `PyVal`; `user_info` is the slot dict.  Every key is
written by `ChatSession.process_with_langgraph` when a turn starts, so each
field is always present in the state dict handed to nodes. -/
structure FashionState where
  user_input : String
  client_id : String
  conversation_history : String
  service_mode : Option String
  gender : Option String
  current_parameters : PyVal
  recommendations : PyVal
  response_message : PyVal
  websocket_messages : List Msg
  follow_up_needed : Bool
  follow_up_message : Option (List Question)
  confidence_score : PyVal
  error_message : Option String
  is_gender_loop : Bool
  user_info : List (String × PyVal)

/-- The workflow nodes (fashion_graph.py:144-155). -/
inductive Node where
  | process_conversation
  | extract_gender
  | route_to_service
  | handle_occasion
  | handle_pairing
  | handle_vacation
  | handle_general
  | handle_styling
  | generate_followup
  | prepare_response
  | process_bot_response
deriving DecidableEq

/-- External calls of the ConversationService / GenderService layer, logged by
the turn runner (instrumentation used to state which turns classify or
summarize; it does not influence any computed state). -/
inductive CallTag where
  | summarize_user
  | classify_intent
  | infer_gender
  | summarize_bot
deriving DecidableEq

/-- `_process_conversation` (fashion_graph.py:226-235): inside the `try`,
`state['user_info']['gender']` is read, `processTurn` runs, and
`service_mode := intent.lower()`, `conversation_history := context` are
assigned; any exception is converted into `error_message`.  The service
mutations that happened before a failure persist. -/
def process_conversation (o : Oracle) (cv : ConvState) (s : FashionState) :
    ConvState × FashionState × List CallTag :=
  match pyDictGet (.dict s.user_info) "gender" with
  | .error e =>
      (cv, { s with error_message := some ("Error processing conversation: " ++ e) }, [])
  | .ok gender =>
      let r := processTurn o cv s.user_input gender
      let calls := [CallTag.summarize_user, CallTag.classify_intent]
      match r.2 with
      | .error e =>
          (r.1, { s with error_message := some ("Error processing conversation: " ++ e) }, calls)
      | .ok (intent, context) =>
          match pyLower intent with
          | .error e =>
              (r.1, { s with error_message := some ("Error processing conversation: " ++ e) },
               calls)
          | .ok m =>
              (r.1, { s with service_mode := some m, conversation_history := context }, calls)

/-- `_extract_gender` (fashion_graph.py:237-245): infers gender from
(conversation_history, user_input, previous gender) and stores it into
`user_info['gender']`; exceptions become `error_message`. -/
def extract_gender (o : Oracle) (s : FashionState) : FashionState × List CallTag :=
  match pyDictGet (.dict s.user_info) "gender" with
  | .error e => ({ s with error_message := some ("Error extracting gender: " ++ e) }, [])
  | .ok gender =>
      match getGender o s.conversation_history s.user_input gender with
      | .ok g =>
          ({ s with user_info := pyDictSet s.user_info "gender" (.str g) },
           [CallTag.infer_gender])
      | .error e =>
          ({ s with error_message := some ("Error extracting gender: " ++ e) },
           [CallTag.infer_gender])

/-- `_route_to_service` (fashion_graph.py:247-249): identity. -/
def route_to_service (s : FashionState) : FashionState := s

/-- The accepted gender values of `_check_gender_available` and
`_generate_followup` (fashion_graph.py:386,452). -/
def resolved_genders : List String := ["male", "female", "unisex", "not_needed"]

/-- The test `gender and gender.lower() in ['male','female','unisex','not_needed']`
shared by `_check_gender_available` (fashion_graph.py:452) and (negated)
`_generate_followup` (fashion_graph.py:386).  A truthy non-string gender makes
`.lower()` raise. -/
def gender_cond (gender : PyVal) : Except String Bool :=
  if truthy gender then
    match pyLower gender with
    | .ok l => .ok (resolved_genders.contains l)
    | .error e => .error e
  else .ok false

/-- `_check_gender_available` (fashion_graph.py:449-457): a conditional-edge
function; it is not wrapped in `try`, so an exception here aborts the graph
invocation. -/
def check_gender_available (s : FashionState) : Except String String :=
  match pyDictGet (.dict s.user_info) "gender" with
  | .error e => .error e
  | .ok gender =>
      match gender_cond gender with
      | .error e => .error e
      | .ok b => .ok (if b then "gender_found" else "gender_missing")

/-- `_decide_service_route` (fashion_graph.py:459-461):
`state.get("service_mode", "general")`.  The `service_mode` key is always
present in the state dict (its value may be `None`), so the `"general"`
default is dead and the returned value is the raw `service_mode`. -/
def decide_service_route (s : FashionState) : Option String := s.service_mode

/-- The handler a route string dispatches to. -/
inductive Route where
  | occasion
  | pairing
  | vacation
  | general
  | styling
deriving DecidableEq

/-- The conditional-edge mapping of `route_to_service`
(fashion_graph.py:170-180): only the five listed strings are valid branch
destinations.  Any other value (in particular `None` before the first
successful classification, and `"suitme"` — the lowercased `SuitMe` label the
classifier prompt itself defines) makes the graph library raise at runtime,
aborting the invocation; the message abbreviates the library's error. -/
def routeTarget : Option String → Except String Route
  | some "occasion" => .ok Route.occasion
  | some "pairing" => .ok Route.pairing
  | some "vacation" => .ok Route.vacation
  | some "general" => .ok Route.general
  | some "styling" => .ok Route.styling
  | some r => .error ("Branch condition returned unknown target: " ++ r)
  | Option.none => .error "Branch condition returned unknown target: None"

/-- `str(e)` of the `TypeError` raised on every `_handle_occasion` invocation:
the handler (fashion_graph.py:254-258) calls
`extract_parameters(user_input, current_parameters, conversation_history)`
with three arguments, but `OccasionService.extract_parameters`
(occasionService.py:23) is declared `(self, user_input, parameters)`. -/
def occasion_arity_error : String :=
  "OccasionService.extract_parameters() takes 3 positional arguments but 4 were given"

/-- `_handle_occasion` (fashion_graph.py:251-277): the first statement of the
`try` block raises the arity `TypeError` above, so the handler always lands in
its `except` branch; the remainder of the body is unreachable on every
invocation and is not modelled further. -/
def handle_occasion (s : FashionState) : FashionState :=
  { s with error_message := some ("Error in occasion handling: " ++ occasion_arity_error) }

/-- `_handle_pairing` (fashion_graph.py:279-301). -/
def handle_pairing (o : Oracle) (s : FashionState) : FashionState :=
  match o.pairingComplementsAI s.user_input s.conversation_history with
  | .error e => { s with error_message := some ("Error in pairing handling: " ++ e) }
  | .ok complements =>
      let item_to_pair := strStrip (strLower s.user_input)
      let response_message :=
        if truthy complements then
          "Perfect! For " ++ item_to_pair ++ ", here are some great pieces that would complement it beautifully. These combinations will create cohesive, stylish looks!"
        else
          "I couldn\x27t find specific pairings for \x27" ++ item_to_pair ++ "\x27. Could you try describing the item differently? For example: \x27blue jeans\x27, \x27white shirt\x27, \x27black boots\x27, etc."
      { s with recommendations := complements,
               response_message := .str response_message,
               follow_up_needed := false }

/-- Python tuple unpacking `a, b = v` of an arbitrary value: lists and strings
unpack by element (success only at length exactly 2), dicts unpack to their
*keys*, anything else is not iterable. -/
def unpack2 (v : PyVal) : Except String (PyVal × PyVal) :=
  match v with
  | .list [a, b] => .ok (a, b)
  | .list xs =>
      if xs.length > 2 then .error "too many values to unpack (expected 2)"
      else .error ("not enough values to unpack (expected 2, got " ++
                   toString xs.length ++ ")")
  | .dict [(k1, _), (k2, _)] => .ok (.str k1, .str k2)
  | .dict d =>
      if d.length > 2 then .error "too many values to unpack (expected 2)"
      else .error ("not enough values to unpack (expected 2, got " ++
                   toString d.length ++ ")")
  | .str s =>
      match s.toList with
      | [c1, c2] => .ok (.str (String.mk [c1]), .str (String.mk [c2]))
      | cs =>
          if cs.length > 2 then .error "too many values to unpack (expected 2)"
          else .error ("not enough values to unpack (expected 2, got " ++
                       toString cs.length ++ ")")
  | w => .error ("cannot unpack non-iterable " ++ pyTypeName w ++ " object")

/-- `_handle_vacation` (fashion_graph.py:303-318):
`dialogue, products = get_vacation_recommendation(...)` followed by the state
assignments; any exception (including the unpack failure) becomes
`error_message`. -/
def handle_vacation (o : Oracle) (s : FashionState) : FashionState :=
  let attempt : Except String (PyVal × PyVal) :=
    match get_vacation_recommendation o s.user_input s.conversation_history with
    | .error e => .error e
    | .ok v => unpack2 v
  match attempt with
  | .error e => { s with error_message := some ("Error in vacation handling: " ++ e) }
  | .ok (dialogue, products) =>
      { s with recommendations := products,
               response_message := dialogue,
               follow_up_needed := false }

/-- `_handle_general` (fashion_graph.py:320-334). -/
def handle_general (o : Oracle) (s : FashionState) : FashionState :=
  match o.generalRespondAI s.conversation_history s.user_input with
  | .error e => { s with error_message := some ("Error in general handling: " ++ e) }
  | .ok (general_message, prods) =>
      { s with recommendations := if truthy prods then prods else .list [],
               response_message := general_message,
               follow_up_needed := false }

/-- `str(e)` of the `TypeError` raised on every `_handle_styling` invocation:
`LooksGoodOnMeService.analyze_looks_good_on_me` (looksGoodOnMeService.py:175)
is `async def` but is called without `await` (fashion_graph.py:343), so
`result['user_response']` subscripts a coroutine object. -/
def styling_coroutine_error : String := "\x27coroutine\x27 object is not subscriptable"

/-- `_handle_styling` (fashion_graph.py:336-362): the `user_info` reset
applies only when the dict is falsy (empty); subscripting the un-awaited
coroutine then raises, so the handler always lands in its `except` branch. -/
def handle_styling (s : FashionState) : FashionState :=
  let s1 := if s.user_info.isEmpty then { s with user_info := [] } else s
  { s1 with error_message := some ("Error in styling handling: " ++ styling_coroutine_error) }

/-- The five styling profile fields of `_generate_followup` and
`_check_followup_style_needed` (fashion_graph.py:372,473). -/
def required_style_fields : List String :=
  ["body_type", "skin_tone", "height", "style_preferences", "size_preferences"]

/-- `user_info.get(field)` truthiness used for the missing-field filters. -/
def fieldMissing (user_info : List (String × PyVal)) (f : String) : Bool :=
  !truthy ((pyLookup user_info f).getD PyVal.none)

/-- The styling block of `_generate_followup` (fashion_graph.py:370-382):
when the current service mode is styling, every missing profile field becomes
a question; the batch is stored only when non-empty. -/
def generate_followup_styling_block (s : FashionState) : FashionState :=
  if s.service_mode = some "styling" then
    let missing_fields := required_style_fields.filter (fieldMissing s.user_info)
    let followup_questions := missing_fields.filterMap questionFor
    if !followup_questions.isEmpty then
      { s with follow_up_needed := true, follow_up_message := some followup_questions }
    else s
  else s

/-- `_generate_followup` (fashion_graph.py:364-391): the styling block first,
then the gender override: when the gender test fails, `follow_up_message` is
replaced by the single gender question and `is_gender_loop` is set.  The node
is not wrapped in `try`; a truthy non-string gender would raise out of the
graph. -/
def generate_followup (s : FashionState) : Except String FashionState :=
  let s1 := generate_followup_styling_block s
  let gender := (pyLookup s1.user_info "gender").getD PyVal.none
  match gender_cond gender with
  | .error e => .error e
  | .ok b =>
      if !b then
        .ok { s1 with follow_up_needed := true,
                      follow_up_message := some [question_gender],
                      is_gender_loop := true }
      else .ok s1

/-- `_check_followup_needed` (fashion_graph.py:463-465): constant. -/
def check_followup_needed (_s : FashionState) : String := "complete"

/-- `_check_followup_style_needed` (fashion_graph.py:467-481). -/
def check_followup_style_needed (s : FashionState) : String :=
  let missing_fields := required_style_fields.filter (fieldMissing s.user_info)
  if required_style_fields.length - missing_fields.length < 2 then "followup"
  else "complete"

/-- `state["recommendations"][:7]` (fashion_graph.py:442): a slice of a list
or string; `None` and numbers are not subscriptable and a dict rejects slice
keys. -/
def pySlice7 (v : PyVal) : Except String (List PyVal) :=
  match v with
  | .list xs => .ok (xs.take 7)
  | .str s => .ok ((s.toList.take 7).map (fun c => .str (String.mk [c])))
  | .dict _ => .error "unhashable type: \x27slice\x27"
  | w => .error ("\x27" ++ pyTypeName w ++ "\x27 object is not subscriptable")

/-- One entry of the recommendations payload (fashion_graph.py:435-441):
`{id: i+1, product_id: rec['product_id'], title: rec['title'],
brand_name: rec['brand_name'], price: rec.get('price', 'N/A')}`. -/
def mkRecItem (i : Nat) (rec : PyVal) : Except String RecItem :=
  match pyDictGet rec "product_id" with
  | .error e => .error e
  | .ok pid =>
    match pyDictGet rec "title" with
    | .error e => .error e
    | .ok title =>
      match pyDictGet rec "brand_name" with
      | .error e => .error e
      | .ok brand =>
        match pyGetD rec "price" (.str "N/A") with
        | .error e => .error e
        | .ok price => .ok ⟨i + 1, pid, title, brand, price⟩

/-- The `enumerate(state["recommendations"][:7], 0)` comprehension. -/
def enumRecItems : Nat → List PyVal → Except String (List RecItem)
  | _, [] => .ok []
  | i, r :: rs =>
      match mkRecItem i r with
      | .error e => .error e
      | .ok item =>
          match enumRecItems (i + 1) rs with
          | .error e => .error e
          | .ok items => .ok (item :: items)

/-- The leading `intent` message (fashion_graph.py:397-401). -/
def intentMsg (s : FashionState) : Msg :=
  Msg.intent s.conversation_history "recommendation_intro"

/-- `_prepare_response` (fashion_graph.py:393-447): the intent notice first,
then exactly one of the `error` / `followup` / gender-loop `bot_message` /
normal `bot_message` (+ optional `recommendations`) branches, in that
priority order.  The node is not in a `try` block, so a failure while
re-packaging malformed recommendation entries aborts the graph invocation.
The literal defaults of the `state.get("response_message", ...)` reads are
dead because the key is always present. -/
def prepare_response (s : FashionState) : Except String FashionState :=
  let base := [intentMsg s]
  if truthyOptStr s.error_message then
    .ok { s with websocket_messages := base ++ [Msg.error (s.error_message.getD "")] }
  else if s.follow_up_needed then
    .ok { s with websocket_messages :=
            base ++ [Msg.followup "Help me personalize your recommendations"
                       s.follow_up_message "followup_question"] }
  else if s.is_gender_loop then
    .ok { s with websocket_messages :=
            base ++ [Msg.bot_message s.response_message "gender_question"] }
  else
    let msgs := base ++ [Msg.bot_message s.response_message "recommendation_intro"]
    if truthy s.recommendations then
      match pySlice7 s.recommendations with
      | .error e => .error e
      | .ok sliced =>
          match enumRecItems 0 sliced with
          | .error e => .error e
          | .ok items =>
              .ok { s with websocket_messages := msgs ++ [Msg.recommendations items] }
    else .ok { s with websocket_messages := msgs }

/-- `_process_bot_response` (fashion_graph.py:519-531): argument evaluation
(`state['user_info']['gender']` may raise `KeyError`, which the `try`
converts into the logged no-op), then `endTurn`, then the context
write-back.  The `ConversationService` mutations always persist. -/
def process_bot_response (o : Oracle) (cv : ConvState) (s : FashionState) :
    ConvState × FashionState × List CallTag :=
  match pyDictGet (.dict s.user_info) "gender" with
  | .error _ => (cv, s, [])
  | .ok gender =>
      let r := endTurn o cv s.response_message gender s.recommendations
      (r.1, { s with conversation_history := r.2 }, [CallTag.summarize_bot])

/-- One completed run of the workflow graph for one turn. -/
structure TurnOut where
  conv : ConvState
  trace : List Node
  calls : List CallTag
  result : Except String FashionState

/-- The tail `prepare_response → process_bot_response → END` shared by every
path of the graph (fashion_graph.py:221-222). -/
def finish_turn (o : Oracle) (cv : ConvState) (tr : List Node) (cl : List CallTag)
    (s : FashionState) : TurnOut :=
  match prepare_response s with
  | .error e => ⟨cv, tr ++ [Node.prepare_response], cl, .error e⟩
  | .ok s1 =>
      let r := process_bot_response o cv s1
      ⟨r.1, tr ++ [Node.prepare_response, Node.process_bot_response],
       cl ++ r.2.2, .ok r.2.1⟩

/-- The `generate_followup → prepare_response` edge (fashion_graph.py:220). -/
def followup_then_finish (o : Oracle) (cv : ConvState) (tr : List Node)
    (cl : List CallTag) (s : FashionState) : TurnOut :=
  match generate_followup s with
  | .error e => ⟨cv, tr ++ [Node.generate_followup], cl, .error e⟩
  | .ok s1 => finish_turn o cv (tr ++ [Node.generate_followup]) cl s1

/-- The two unconditional entry nodes
`process_conversation → extract_gender` (fashion_graph.py:158-159). -/
def pre_route (o : Oracle) (cv : ConvState) (s0 : FashionState) :
    ConvState × FashionState × List CallTag :=
  let pc := process_conversation o cv s0
  let eg := extract_gender o pc.2.1
  (pc.1, eg.1, pc.2.2 ++ eg.2)

/-- Dispatch of `route_to_service`s conditional edge plus the per-handler
follow-up edges (fashion_graph.py:170-219): Occasion/Pairing/Vacation
re-check via the constant `check_followup_needed`, Styling via
`check_followup_style_needed`, General goes straight to `prepare_response`. -/
def run_routed (o : Oracle) (cv : ConvState) (tr : List Node) (cl : List CallTag)
    (s : FashionState) (r : Route) : TurnOut :=
  match r with
  | Route.occasion =>
      let s1 := handle_occasion s
      let tr1 := tr ++ [Node.handle_occasion]
      if check_followup_needed s1 = "followup" then followup_then_finish o cv tr1 cl s1
      else finish_turn o cv tr1 cl s1
  | Route.pairing =>
      let s1 := handle_pairing o s
      let tr1 := tr ++ [Node.handle_pairing]
      if check_followup_needed s1 = "followup" then followup_then_finish o cv tr1 cl s1
      else finish_turn o cv tr1 cl s1
  | Route.vacation =>
      let s1 := handle_vacation o s
      let tr1 := tr ++ [Node.handle_vacation]
      if check_followup_needed s1 = "followup" then followup_then_finish o cv tr1 cl s1
      else finish_turn o cv tr1 cl s1
  | Route.general =>
      finish_turn o cv (tr ++ [Node.handle_general]) cl (handle_general o s)
  | Route.styling =>
      let s1 := handle_styling s
      let tr1 := tr ++ [Node.handle_styling]
      if check_followup_style_needed s1 = "followup" then followup_then_finish o cv tr1 cl s1
      else finish_turn o cv tr1 cl s1

/-- One `ainvoke` of the compiled workflow (fashion_graph.py:157-224):
entry point `process_conversation`, gender gate, routing, handler, follow-up
edges, response preparation, bot-turn fold.  A `.error` result models the
graph invocation raising (a conditional-edge exception or an unknown branch
target); node-internal exceptions were already converted to `error_message`
by the nodes themselves. -/
def runTurn (o : Oracle) (cv : ConvState) (s0 : FashionState) : TurnOut :=
  let pr := pre_route o cv s0
  let cv1 := pr.1
  let s2 := pr.2.1
  let cl := pr.2.2
  let tr := [Node.process_conversation, Node.extract_gender]
  match check_gender_available s2 with
  | .error e => ⟨cv1, tr, cl, .error e⟩
  | .ok branch =>
      if branch = "gender_found" then
        let s3 := route_to_service s2
        let tr1 := tr ++ [Node.route_to_service]
        match routeTarget (decide_service_route s3) with
        | .error e => ⟨cv1, tr1, cl, .error e⟩
        | .ok r => run_routed o cv1 tr1 cl s3 r
      else
        followup_then_finish o cv1 tr cl s2

/-- The session-level state of `ChatSession` (fashion_graph.py:534-543). -/
structure ChatSession where
  conversation_history : String
  service_mode : Option String
  current_parameters : PyVal
  current_recommendations : PyVal
  gender : Option String

/-- `ChatSession.__init__` (fashion_graph.py:535-540). -/
def chatSessionInit : ChatSession :=
  ⟨"", Option.none, PyVal.none, PyVal.none, Option.none⟩

/-- The `user_info` built at the start of every turn
(fashion_graph.py:549-551): a fresh `{'gender': None}` updated with the
turn's `followup_data` only when that dict is truthy (non-empty). -/
def initial_user_info (followup_data : Option (List (String × PyVal))) :
    List (String × PyVal) :=
  let base : List (String × PyVal) := [("gender", PyVal.none)]
  match followup_data with
  | some fd => if fd.isEmpty then base else pyUpdate base fd
  | Option.none => base

/-- The `initial_state` dict of `ChatSession.process_with_langgraph`
(fashion_graph.py:554-570). -/
def initial_state (sess : ChatSession) (user_input client_id : String)
    (followup_data : Option (List (String × PyVal))) : FashionState :=
  { user_input := user_input
    client_id := client_id
    conversation_history := sess.conversation_history
    service_mode := sess.service_mode
    gender := sess.gender
    current_parameters := sess.current_parameters
    recommendations := .list []
    response_message := PyVal.none
    websocket_messages := []
    follow_up_needed := false
    follow_up_message := Option.none
    confidence_score := PyVal.none
    error_message := Option.none
    is_gender_loop := false
    user_info := initial_user_info followup_data }

/-- `ChatSession.process_with_langgraph` (fashion_graph.py:545-594): build the
initial state, invoke the workflow, copy the final state back into the
session and return `websocket_messages`; if the invocation raised, return the
single session-level error message and leave the session fields untouched
(the `ConversationService` mutations that already happened persist). -/
def process_with_langgraph (o : Oracle) (sess : ChatSession) (cv : ConvState)
    (user_input client_id : String)
    (followup_data : Option (List (String × PyVal))) :
    ChatSession × ConvState × List Msg :=
  match (runTurn o cv (initial_state sess user_input client_id followup_data)).result with
  | .ok fs =>
      ({ conversation_history := fs.conversation_history
         service_mode := fs.service_mode
         gender := fs.gender
         current_parameters := fs.current_parameters
         current_recommendations := fs.recommendations },
       (runTurn o cv (initial_state sess user_input client_id followup_data)).conv,
       fs.websocket_messages)
  | .error e =>
      (sess,
       (runTurn o cv (initial_state sess user_input client_id followup_data)).conv,
       [Msg.error ("Sorry, I encountered an error: " ++ e)])

/-- Concatenation of strings with a separator (`sep.join(...)`). -/
def joinSep (sep : String) : List String → String
  | [] => ""
  | [x] => x
  | x :: y :: xs => x ++ sep ++ joinSep sep (y :: xs)

/-- `repr(dict.keys())` as interpolated by the `followup_response` branch of
`main.py` (main.py:346). -/
def dict_keys_repr (fd : List (String × PyVal)) : String :=
  "dict_keys([" ++ joinSep ", " (fd.map (fun kv => "\x27" ++ kv.1 ++ "\x27")) ++ "])"

/-- The synthetic free-text query the WebSocket handler builds for a
follow-up form submission (main.py:346). -/
def followup_query (fd : List (String × PyVal)) : String :=
  "Info provided for the following - " ++ dict_keys_repr fd

/-- The `followup_response` branch of `websocket_endpoint` (main.py:341-379):
the submitted answers drive a full `process_with_langgraph` turn on the
synthetic query, with the answers as `followup_data`. -/
def websocket_followup_turn (o : Oracle) (sess : ChatSession) (cv : ConvState)
    (client_id : String) (fd : List (String × PyVal)) :
    ChatSession × ConvState × List Msg :=
  process_with_langgraph o sess cv (followup_query fd) client_id (some fd)

/-- `pyLookup` after a Python-dict assignment. -/
theorem pyDictSet_lookup (d : List (String × PyVal)) (k : String) (v : PyVal)
    (k' : String) :
    pyLookup (pyDictSet d k v) k' = if k' = k then some v else pyLookup d k' := by
  induction d with
  | nil =>
      by_cases h : k' = k <;> simp [pyDictSet, pyLookup, h, fun h' => Ne.symm h']
  | cons kv rest ih =>
      obtain ⟨k0, v0⟩ := kv
      by_cases h0 : k0 = k
      · subst h0
        by_cases h1 : k' = k0 <;> simp [pyDictSet, pyLookup, h1, fun h' => Ne.symm h']
      · by_cases h1 : k' = k0
        · subst h1
          simp [pyDictSet, pyLookup, h0, Ne.symm h0]
        · simp [pyDictSet, pyLookup, h0, fun h' => Ne.symm h', ih, h1]

/-- The value the last assignment to key `k` in `fd` carries, if any
(later entries win). -/
def lastValue : List (String × PyVal) → String → Option PyVal
  | [], _ => Option.none
  | (k0, v0) :: rest, k =>
      match lastValue rest k with
      | some v => some v
      | Option.none => if k0 = k then some v0 else Option.none

/-- `dict.update` is per-key last-write-wins: after `d.update(fd)`, a key maps
to the last value assigned to it in `fd`, and otherwise to its value in `d`. -/
theorem pyUpdate_lookup (fd : List (String × PyVal)) (d : List (String × PyVal))
    (k : String) :
    pyLookup (pyUpdate d fd) k =
      match lastValue fd k with
      | some v => some v
      | Option.none => pyLookup d k := by
  induction fd generalizing d with
  | nil => simp [pyUpdate, lastValue]
  | cons kv fds ih =>
      obtain ⟨k0, v0⟩ := kv
      have step : pyUpdate d ((k0, v0) :: fds) = pyUpdate (pyDictSet d k0 v0) fds := rfl
      rw [step, ih]
      rcases hl : lastValue fds k with _ | v
      · by_cases h0 : k0 = k
        · subst h0
          simp [lastValue, hl, pyDictSet_lookup]
        · simp [lastValue, hl, pyDictSet_lookup, h0, fun h' => Ne.symm h']
      · simp [lastValue, hl]

/-- The per-turn `user_info` always carries a `gender` key. -/
theorem initial_user_info_gender (fd : Option (List (String × PyVal))) :
    ∃ v, pyLookup (initial_user_info fd) "gender" = some v := by
  rcases fd with _ | fd
  · exact ⟨PyVal.none, rfl⟩
  · unfold initial_user_info
    cases he : fd.isEmpty
    · simp only [he, Bool.false_eq_true, if_false]
      rw [pyUpdate_lookup]
      rcases hl : lastValue fd "gender" with _ | v
      · exact ⟨PyVal.none, by simp [hl, pyLookup]⟩
      · exact ⟨v, by simp [hl]⟩
    · exact ⟨PyVal.none, by simp [he, pyLookup]⟩

/-- `process_bot_response` never touches the outbound list. -/
theorem process_bot_response_messages (o : Oracle) (cv : ConvState)
    (s : FashionState) :
    (process_bot_response o cv s).2.1.websocket_messages = s.websocket_messages := by
  unfold process_bot_response
  rcases pyDictGet (.dict s.user_info) "gender" with e | g <;> simp

/-- A completed `finish_turn` visited exactly `prepare_response` then
`process_bot_response` after the given prefix. -/
theorem finish_turn_ok_trace (o : Oracle) (cv : ConvState) (tr : List Node)
    (cl : List CallTag) (s : FashionState) (fs : FashionState)
    (h : (finish_turn o cv tr cl s).result = .ok fs) :
    (finish_turn o cv tr cl s).trace =
      tr ++ [Node.prepare_response, Node.process_bot_response] := by
  unfold finish_turn at h ⊢
  rcases hp : prepare_response s with e | s1 <;> simp [hp] at h ⊢

/-- A completed `followup_then_finish` visited exactly the follow-up tail. -/
theorem followup_then_finish_ok_trace (o : Oracle) (cv : ConvState)
    (tr : List Node) (cl : List CallTag) (s : FashionState) (fs : FashionState)
    (h : (followup_then_finish o cv tr cl s).result = .ok fs) :
    (followup_then_finish o cv tr cl s).trace =
      (tr ++ [Node.generate_followup]) ++
        [Node.prepare_response, Node.process_bot_response] := by
  unfold followup_then_finish at h ⊢
  rcases hg : generate_followup s with e | s1
  · simp [hg] at h
  · simp only [hg]
    exact finish_turn_ok_trace o cv _ cl s1 fs (by simpa [hg] using h)

/-- The `[:7]` slice yields at most 7 elements. -/
theorem pySlice7_length (v : PyVal) (xs : List PyVal) (h : pySlice7 v = .ok xs) :
    xs.length ≤ 7 := by
  unfold pySlice7 at h
  rcases v with _ | b | n | s | l | d <;>
    simp only [Except.ok.injEq, reduceCtorEq] at h
  · rw [← h]
    simp only [List.length_map, List.length_take]
    omega
  · rw [← h]
    simp only [List.length_take]
    omega

/-- Re-packaging recommendation entries preserves the count. -/
theorem enumRecItems_length (xs : List PyVal) :
    ∀ (i : Nat) (ys : List RecItem), enumRecItems i xs = .ok ys →
      ys.length = xs.length := by
  induction xs with
  | nil => intro i ys h; simp [enumRecItems] at h; simp [← h]
  | cons x rest ih =>
      intro i ys h
      unfold enumRecItems at h
      rcases hx : mkRecItem i x with e | item
      · simp [hx] at h
      · rcases hr : enumRecItems (i + 1) rest with e | items
        · simp [hx, hr] at h
        · simp only [hx, hr, Except.ok.injEq] at h
          have := ih (i + 1) items hr
          rw [← h]
          simp [List.length_cons, this]

/-- C2: for every turn, `_prepare_response` assembles the outbound list (after
the leading intent notice) in strict priority order: a present (truthy) error
message yields exactly the `Error` item and suppresses `FollowUp`, the
gender-loop prompt and the normal response; otherwise a needed follow-up
yields exactly the `FollowUp` item; otherwise the gender-loop flag yields the
dedicated gender `bot_message`; otherwise the normal `bot_message` is emitted,
followed by a `recommendations` item exactly when the recommendation list is
truthy. -/
theorem c2_message_priority (s fs : FashionState)
    (h : prepare_response s = .ok fs) :
    (truthyOptStr s.error_message = true →
      fs.websocket_messages = [intentMsg s, Msg.error (s.error_message.getD "")]) ∧
    (truthyOptStr s.error_message = false → s.follow_up_needed = true →
      fs.websocket_messages =
        [intentMsg s,
         Msg.followup "Help me personalize your recommendations"
           s.follow_up_message "followup_question"]) ∧
    (truthyOptStr s.error_message = false → s.follow_up_needed = false →
      s.is_gender_loop = true →
      fs.websocket_messages =
        [intentMsg s, Msg.bot_message s.response_message "gender_question"]) ∧
    (truthyOptStr s.error_message = false → s.follow_up_needed = false →
      s.is_gender_loop = false →
      ∃ rest,
        fs.websocket_messages =
          [intentMsg s, Msg.bot_message s.response_message "recommendation_intro"]
            ++ rest ∧
        ((truthy s.recommendations = false ∧ rest = []) ∨
         (truthy s.recommendations = true ∧
          ∃ items, rest = [Msg.recommendations items]))) := by
  unfold prepare_response at h
  refine ⟨?_, ?_, ?_, ?_⟩
  · intro he
    simp only [he, if_true, Except.ok.injEq] at h
    rw [← h]
    rfl
  · intro he hf
    simp only [he, hf, Bool.false_eq_true, if_false, if_true, Except.ok.injEq] at h
    rw [← h]
    rfl
  · intro he hf hg
    simp only [he, hf, hg, Bool.false_eq_true, if_false, if_true, Except.ok.injEq] at h
    rw [← h]
    rfl
  · intro he hf hg
    simp only [he, hf, hg, Bool.false_eq_true, if_false] at h
    cases ht : truthy s.recommendations
    · simp only [ht, Bool.false_eq_true, if_false, Except.ok.injEq] at h
      exact ⟨[], by rw [← h]; simp, Or.inl ⟨rfl, rfl⟩⟩
    · simp only [ht, if_true] at h
      rcases hs : pySlice7 s.recommendations with e | sliced
      · simp only [hs, reduceCtorEq] at h
      · simp only [hs] at h
        rcases hi : enumRecItems 0 sliced with e | items
        · simp only [hi, reduceCtorEq] at h
        · simp only [hi, Except.ok.injEq] at h
          exact ⟨[Msg.recommendations items], by rw [← h]; rfl,
                 Or.inr ⟨rfl, items, rfl⟩⟩

/-- C9: every outbound `recommendations` message that `_prepare_response`
emits carries at most 7 items, whatever the handler put into
`state["recommendations"]`. -/
theorem c9_recommendation_cap (s fs : FashionState)
    (h : prepare_response s = .ok fs) (items : List RecItem)
    (hmem : Msg.recommendations items ∈ fs.websocket_messages) :
    items.length ≤ 7 := by
  unfold prepare_response at h
  by_cases he : truthyOptStr s.error_message = true
  · simp only [he, if_true, Except.ok.injEq] at h
    rw [← h] at hmem
    simp [intentMsg] at hmem
  · rw [Bool.not_eq_true] at he
    by_cases hf : s.follow_up_needed = true
    · simp only [he, hf, Bool.false_eq_true, if_false, if_true, Except.ok.injEq] at h
      rw [← h] at hmem
      simp [intentMsg] at hmem
    · rw [Bool.not_eq_true] at hf
      by_cases hg : s.is_gender_loop = true
      · simp only [he, hf, hg, Bool.false_eq_true, if_false, if_true,
                   Except.ok.injEq] at h
        rw [← h] at hmem
        simp [intentMsg] at hmem
      · rw [Bool.not_eq_true] at hg
        simp only [he, hf, hg, Bool.false_eq_true, if_false] at h
        cases ht : truthy s.recommendations
        · simp only [ht, Bool.false_eq_true, if_false, Except.ok.injEq] at h
          rw [← h] at hmem
          simp [intentMsg] at hmem
        · simp only [ht, if_true] at h
          rcases hs : pySlice7 s.recommendations with e | sliced
          · simp only [hs, reduceCtorEq] at h
          rcases hi : enumRecItems 0 sliced with e | items0
          · simp only [hs, hi, reduceCtorEq] at h
          simp only [hs, hi, Except.ok.injEq] at h
          rw [← h] at hmem
          simp only [intentMsg, List.cons_append, List.nil_append,
                     List.mem_cons, List.mem_singleton, reduceCtorEq,
                     Msg.recommendations.injEq, false_or] at hmem
          have : items = items0 := by tauto
          subst this
          calc items.length = sliced.length := enumRecItems_length sliced 0 items hi
            _ ≤ 7 := pySlice7_length s.recommendations sliced hs

/-- C10: when the workflow invocation raises, `process_with_langgraph` returns
exactly one `error` message and leaves every session field untouched (the
updates at fashion_graph.py:580-584 are only reached on success). -/
theorem c10_session_error_atomicity (o : Oracle) (sess : ChatSession)
    (cv : ConvState) (user_input client_id : String)
    (fd : Option (List (String × PyVal))) (e : String)
    (h : (runTurn o cv (initial_state sess user_input client_id fd)).result = .error e) :
    process_with_langgraph o sess cv user_input client_id fd =
      (sess, (runTurn o cv (initial_state sess user_input client_id fd)).conv,
       [Msg.error ("Sorry, I encountered an error: " ++ e)]) := by
  unfold process_with_langgraph
  rw [h]

/-- A benign oracle used as the base of the concrete scenario runs: the two
context folds succeed, the classifier call yields content with no JSON
object (so the classifier falls back to `General`), gender inference yields
`Male`, and the remaining services answer trivially.  Individual scenarios
override single fields. -/
def oracleBase : Oracle :=
  { summarizeUserAI := fun _ _ _ _ => .ok "ctx-user"
    classifyIntentAI := fun _ _ => .ok ""
    summarizeBotAI := fun _ _ _ _ => .ok "ctx-bot"
    jsonLoads := fun _ => .error "Expecting value: line 1 column 1 (char 0)"
    genderAI := fun _ _ _ => .ok "Male"
    pairingComplementsAI := fun _ _ => .ok (.list [])
    generalRespondAI := fun _ _ => .ok (.str "Happy to help!", PyVal.none)
    vacationDestAI := fun _ => .ok "goa"
    vacationLocationsAI := fun _ _ _ => .error "api unavailable"
    vacationTagsAI := fun _ _ _ _ => .ok (.list [], .list [])
    vacationComplementsAI := fun _ _ _ => .ok (.list [])
    vacationDialogueAI := fun _ _ _ => .ok "Enjoy the trip!" }

/-- The exact completion content `'{"reasoning": "r", "intent": <label>}'`. -/
def intentJson (label : String) : String :=
  "\x7b\x22reasoning\x22: \x22r\x22, \x22intent\x22: \x22" ++ label ++ "\x22\x7d"

/-- `json.loads` restricted to the single intent document a scenario uses:
on `intentJson label` it returns the parsed two-field object (exactly what
`json.loads` returns on that text); any other input is a decode error. -/
def intentLoads (label : String) : String → Except String PyVal :=
  fun s =>
    if s = intentJson label then
      .ok (.dict [("reasoning", .str "r"), ("intent", .str label)])
    else .error "Expecting value: line 1 column 1 (char 0)"

/-- Scenario oracle for C10: the classifier content is brace-delimited but is
not a JSON document, so `json.loads` raises inside `understandIntent`; on a
fresh session `service_mode` therefore stays `None` and routing aborts the
graph invocation. -/
def oracleC10 : Oracle :=
  { oracleBase with classifyIntentAI := fun _ _ => .ok "\x7bnot json\x7d" }

/-- Witness for the C10 theorem at a concrete crashing turn: the first turn of
a fresh session whose classification content cannot be parsed. -/
theorem c10_session_error_atomicity_witness :
    process_with_langgraph oracleC10 chatSessionInit convInit "hello" "c10"
        Option.none =
      (chatSessionInit,
       (runTurn oracleC10 convInit
         (initial_state chatSessionInit "hello" "c10" Option.none)).conv,
       [Msg.error ("Sorry, I encountered an error: " ++
         "Branch condition returned unknown target: None")]) :=
  c10_session_error_atomicity oracleC10 chatSessionInit convInit "hello" "c10"
    Option.none "Branch condition returned unknown target: None" rfl

/-- A state (used only as a theorem input) whose slots are filled, carrying
both a truthy error message and a pending follow-up. -/
def stateC2 : FashionState :=
  { initial_state chatSessionInit "hi" "c2" Option.none with
    error_message := some "Error in pairing handling: boom"
    follow_up_needed := true
    follow_up_message := some [question_gender]
    response_message := .str "normal text" }

/-- Witness for C2 at `stateC2`: with an error and a follow-up simultaneously
present the outbound list is exactly the intent notice plus the `Error`
item. -/
theorem c2_message_priority_witness :
    ∃ fs, prepare_response stateC2 = .ok fs ∧
      fs.websocket_messages =
        [intentMsg stateC2, Msg.error "Error in pairing handling: boom"] := by
  obtain ⟨h1, _, _, _⟩ := c2_message_priority stateC2 _ rfl
  exact ⟨_, rfl, h1 rfl⟩

/-- A catalog entry dict as the recommendation services produce them. -/
def recDict (k : Nat) : PyVal :=
  .dict [("product_id", .int k), ("title", .str "Linen Shirt"),
         ("brand_name", .str "Broadway")]

/-- A state whose handler left nine products in `recommendations`. -/
def stateC9 : FashionState :=
  { initial_state chatSessionInit "hi" "c9" Option.none with
    recommendations := .list ((List.range 9).map recDict)
    response_message := .str "Here you go!" }

/-- Witness for C9 at `stateC9`: nine stored products still yield at most
seven outbound items. -/
theorem c9_recommendation_cap_witness :
    ∃ fs, prepare_response stateC9 = .ok fs ∧
      ∀ items, Msg.recommendations items ∈ fs.websocket_messages →
        items.length ≤ 7 :=
  ⟨_, rfl, fun items hmem => c9_recommendation_cap stateC9 _ rfl items hmem⟩

/-- C3 (amended): when the external summarization call raises, neither fold
raises — `_call_ai` swallows the exception — but both folds then *replace*
`self.conversation_context` with the empty string `""` that `_call_ai`
returns, instead of retaining the prior context. -/
theorem c3_fold_failure_stores_empty :
    (∀ (o : Oracle) (cv : ConvState) (user_input : String) (gender : PyVal)
       (e : String),
      o.summarizeUserAI cv.conversation_context user_input gender cv.recs = .error e →
      (processTurn o cv user_input gender).1.conversation_context = "") ∧
    (∀ (o : Oracle) (cv : ConvState) (response gender recs : PyVal) (e : String),
      o.summarizeBotAI cv.conversation_context response
        (if truthy recs then recs else cv.recs) gender = .error e →
      (endTurn o cv response gender recs).1.conversation_context = "") := by
  constructor
  · intro o cv user_input gender e h
    unfold processTurn addToConversation conv_call_ai
    rw [h]
    rcases hI : understandIntent o "" (ConvState.intent cv) user_input with e' | p <;>
      simp [hI]
  · intro o cv response gender recs e h
    by_cases ht : truthy recs = true
    · unfold endTurn endConvo conv_call_ai
      simp only [ht, if_true]
      rw [if_pos ht] at h
      rw [h]
    · unfold endTurn endConvo conv_call_ai
      rw [Bool.not_eq_true] at ht
      simp only [ht, Bool.false_eq_true, if_false]
      rw [if_neg (by simp [ht])] at h
      rw [h]

/-- Scenario oracle for C3: the user-turn summarization call raises. -/
def oracleC3 : Oracle :=
  { oracleBase with summarizeUserAI := fun _ _ _ _ => .error "Connection error." }

/-- A `ConversationService` state holding a prior, non-empty context. -/
def convPrior : ConvState :=
  ⟨.list [], .str "general", "The user is looking for office wear."⟩

/-- C3 counterexample: with a failed summarization call the user-turn fold
replaces the non-empty prior context by `""`, contradicting the claim that
the unmodified prior context is retained (and that the context stays
non-empty). -/
theorem c3_counterexample :
    (processTurn oracleC3 convPrior "show me shirts" PyVal.none).1.conversation_context
      = "" ∧
    convPrior.conversation_context = "The user is looking for office wear." ∧
    (processTurn oracleC3 convPrior "show me shirts" PyVal.none).1.conversation_context
      ≠ convPrior.conversation_context :=
  ⟨rfl, rfl, by decide⟩

/-- Witness for the C3 theorem at the concrete failing-call scenario. -/
theorem c3_fold_failure_stores_empty_witness :
    (processTurn oracleC3 convPrior "show me shirts" PyVal.none).1.conversation_context
      = "" ∧
    (endTurn { oracleBase with summarizeBotAI := fun _ _ _ _ => .error "Connection error." }
        convPrior (.str "reply") PyVal.none (.list [])).1.conversation_context = "" :=
  ⟨c3_fold_failure_stores_empty.1 oracleC3 convPrior "show me shirts" PyVal.none
     "Connection error." rfl,
   c3_fold_failure_stores_empty.2
     { oracleBase with summarizeBotAI := fun _ _ _ _ => .error "Connection error." }
     convPrior (.str "reply") PyVal.none (.list []) "Connection error." rfl⟩

/-- C4 (amended): classifier content with no brace-delimited region falls back
to `General` without raising; content whose brace-delimited slice parses to an
object lacking the `reasoning` (or `intent`) field makes `understandIntent`
raise a `KeyError` instead of returning `General`. -/
theorem c4_classifier_parse_handling :
    (∀ (o : Oracle) (context user_input : String) (prev : PyVal),
      braceSlice (strStrip (conv_call_ai (o.classifyIntentAI user_input context))) =
        Option.none →
      understandIntent o context prev user_input = .ok (.str "General")) ∧
    (∀ (o : Oracle) (context user_input : String) (prev : PyVal) (slice : String)
       (d : List (String × PyVal)),
      braceSlice (strStrip (conv_call_ai (o.classifyIntentAI user_input context))) =
        some slice →
      o.jsonLoads slice = .ok (.dict d) →
      pyLookup d "reasoning" = Option.none →
      understandIntent o context prev user_input = .error ("\x27reasoning\x27")) ∧
    (∀ (o : Oracle) (context user_input : String) (prev : PyVal) (slice : String)
       (d : List (String × PyVal)) (r : PyVal),
      braceSlice (strStrip (conv_call_ai (o.classifyIntentAI user_input context))) =
        some slice →
      o.jsonLoads slice = .ok (.dict d) →
      pyLookup d "reasoning" = some r →
      pyLookup d "intent" = Option.none →
      understandIntent o context prev user_input = .error ("\x27intent\x27")) := by
  refine ⟨?_, ?_, ?_⟩
  · intro o context user_input prev h
    unfold understandIntent
    simp only [h]
  · intro o context user_input prev slice d h1 h2 h3
    unfold understandIntent
    simp only [h1, h2]
    simp [pyDictGet, h3]
  · intro o context user_input prev slice d r h1 h2 h3 h4
    unfold understandIntent
    simp only [h1, h2]
    simp [pyDictGet, h3, h4]

/-- Scenario oracle for C4: the classifier returns the brace-delimited
document `'{"foo": 1}'`, which `json.loads` parses into an object without the
expected fields. -/
def oracleC4 : Oracle :=
  { oracleBase with
    classifyIntentAI := fun _ _ => .ok "\x7b\x22foo\x22: 1\x7d"
    jsonLoads := fun s =>
      if s = "\x7b\x22foo\x22: 1\x7d" then .ok (.dict [("foo", .int 1)])
      else .error "Expecting value: line 1 column 1 (char 0)" }

/-- A session whose previous turn had routed to the general service. -/
def sessionGeneral : ChatSession :=
  { chatSessionInit with service_mode := some "general" }

/-- C4 counterexample: on content that parses to a JSON object without an
`intent` field the classifier raises a `KeyError` (it does not return
`General`); the orchestrator catches it and the turn completes with an
`Error` outbound message. -/
theorem c4_counterexample :
    understandIntent oracleC4 "prior context" (.str "general") "hi" =
      .error "\x27reasoning\x27" ∧
    (runTurn oracleC4 convInit
        (initial_state sessionGeneral "hi" "c4" Option.none)).result.toOption.map
        FashionState.websocket_messages =
      some [Msg.intent "" "recommendation_intro",
            Msg.error "Error processing conversation: \x27reasoning\x27"] :=
  ⟨rfl, rfl⟩

/-- Witness for the C4 theorem: part one at the base oracle (whose classifier
content is empty, hence has no JSON region), part two at the C4 scenario
oracle. -/
theorem c4_classifier_parse_handling_witness :
    understandIntent oracleBase "ctx" (.str "general") "hi" = .ok (.str "General") ∧
    understandIntent oracleC4 "ctx" (.str "general") "hi" = .error "\x27reasoning\x27" :=
  ⟨c4_classifier_parse_handling.1 oracleBase "ctx" "hi" (.str "general") rfl,
   c4_classifier_parse_handling.2.1 oracleC4 "ctx" "hi" (.str "general")
     "\x7b\x22foo\x22: 1\x7d" [("foo", .int 1)] rfl rfl rfl⟩

/-- The styling block only ever touches the two follow-up fields. -/
theorem styling_block_fields (s : FashionState) :
    (generate_followup_styling_block s).user_info = s.user_info ∧
    (generate_followup_styling_block s).error_message = s.error_message ∧
    (generate_followup_styling_block s).conversation_history = s.conversation_history ∧
    (generate_followup_styling_block s).response_message = s.response_message ∧
    (generate_followup_styling_block s).recommendations = s.recommendations := by
  simp only [generate_followup_styling_block]
  split_ifs <;> exact ⟨rfl, rfl, rfl, rfl, rfl⟩

/-- With an unresolved gender slot, `_generate_followup` succeeds and forces
the single gender question (overriding any styling batch), setting the
gender-loop flag and leaving the rest of the state alone. -/
theorem generate_followup_unresolved (s : FashionState) (g : PyVal)
    (hg : pyLookup s.user_info "gender" = some g)
    (hcond : gender_cond g = .ok false) :
    ∃ s1 : FashionState,
      generate_followup s = .ok s1 ∧
      s1.follow_up_needed = true ∧
      s1.follow_up_message = some [question_gender] ∧
      s1.is_gender_loop = true ∧
      s1.error_message = s.error_message ∧
      s1.conversation_history = s.conversation_history ∧
      s1.user_info = s.user_info := by
  obtain ⟨hui, herr, hch, _, _⟩ := styling_block_fields s
  simp only [generate_followup]
  rw [hui, hg]
  simp only [Option.getD_some, hcond, Bool.not_false, if_true]
  exact ⟨_, rfl, rfl, rfl, rfl, herr, hch, rfl⟩

/-- With no truthy error and a pending follow-up, `_prepare_response` emits
exactly the intent notice and the follow-up form. -/
theorem prepare_response_followup (s : FashionState)
    (herr : truthyOptStr s.error_message = false)
    (hfu : s.follow_up_needed = true) :
    prepare_response s =
      .ok { s with websocket_messages :=
              [intentMsg s,
               Msg.followup "Help me personalize your recommendations"
                 s.follow_up_message "followup_question"] } := by
  unfold prepare_response
  simp only [herr, hfu, Bool.false_eq_true, if_false, if_true]
  rfl

/-- Messages of a completed `finish_turn` on a follow-up state. -/
theorem finish_turn_followup_messages (o : Oracle) (cv : ConvState)
    (tr : List Node) (cl : List CallTag) (s : FashionState)
    (herr : truthyOptStr s.error_message = false)
    (hfu : s.follow_up_needed = true) :
    ∀ fs, (finish_turn o cv tr cl s).result = .ok fs →
      fs.websocket_messages =
        [intentMsg s,
         Msg.followup "Help me personalize your recommendations"
           s.follow_up_message "followup_question"] := by
  intro fs h
  unfold finish_turn at h
  rw [prepare_response_followup s herr hfu] at h
  simp only [Except.ok.injEq] at h
  rw [← h, process_bot_response_messages]

/-- C1 (amended): whenever the gender slot after `extract_gender` fails the
orchestrator's gender test, the turn takes the `generate_followup` detour —
no Occasion, Pairing or Vacation handler is invoked — and, when no stage
error was recorded, the outbound list is the intent notice plus a `FollowUp`
form whose questions are exactly the gender question (the gender-loop flag is
set but the follow-up item takes priority, so no dedicated `GenderPrompt`
`bot_message` is emitted). -/
theorem c1_gender_gating (o : Oracle) (cv : ConvState) (s0 : FashionState)
    (g : PyVal)
    (hg : pyLookup (pre_route o cv s0).2.1.user_info "gender" = some g)
    (hcond : gender_cond g = .ok false) :
    Node.handle_occasion ∉ (runTurn o cv s0).trace ∧
    Node.handle_pairing ∉ (runTurn o cv s0).trace ∧
    Node.handle_vacation ∉ (runTurn o cv s0).trace ∧
    Node.generate_followup ∈ (runTurn o cv s0).trace ∧
    (truthyOptStr (pre_route o cv s0).2.1.error_message = false →
      ∀ fs, (runTurn o cv s0).result = .ok fs →
        fs.websocket_messages =
          [Msg.intent (pre_route o cv s0).2.1.conversation_history
             "recommendation_intro",
           Msg.followup "Help me personalize your recommendations"
             (some [question_gender]) "followup_question"]) := by
  have hcheck : check_gender_available (pre_route o cv s0).2.1 = .ok "gender_missing" := by
    simp [check_gender_available, pyDictGet, hg, hcond]
  have hrun : runTurn o cv s0 =
      followup_then_finish o (pre_route o cv s0).1
        [Node.process_conversation, Node.extract_gender]
        (pre_route o cv s0).2.2 (pre_route o cv s0).2.1 := by
    simp only [runTurn, hcheck]
    rw [if_neg (by decide)]
  obtain ⟨s1, hgf, hfu, hfm, _hgl, herr1, hch1, _hui1⟩ :=
    generate_followup_unresolved (pre_route o cv s0).2.1 g hg hcond
  have hftf : runTurn o cv s0 =
      finish_turn o (pre_route o cv s0).1
        ([Node.process_conversation, Node.extract_gender] ++ [Node.generate_followup])
        (pre_route o cv s0).2.2 s1 := by
    rw [hrun]
    simp [followup_then_finish, hgf]
  rcases hp : prepare_response s1 with e | sp
  · refine ⟨?_, ?_, ?_, ?_, ?_⟩ <;>
      rw [hftf] <;> simp only [finish_turn, hp]
    · simp
    · simp
    · simp
    · simp
    · intro _ fs hres
      simp at hres
  · refine ⟨?_, ?_, ?_, ?_, ?_⟩ <;>
      rw [hftf] <;> simp only [finish_turn, hp]
    · simp
    · simp
    · simp
    · simp
    · intro herr fs hres
      have herr' : truthyOptStr s1.error_message = false := by rw [herr1]; exact herr
      have := finish_turn_followup_messages o (pre_route o cv s0).1
        ([Node.process_conversation, Node.extract_gender] ++ [Node.generate_followup])
        (pre_route o cv s0).2.2 s1 herr' hfu fs (by simp only [finish_turn, hp]; exact hres)
      rw [this, hfm, intentMsg, hch1]

/-- The dedicated minimal gender prompt of the outbound protocol: the
gender-loop rendering `_prepare_response` would emit (fashion_graph.py:417-422),
a `bot_message` with message type `gender_question`. -/
def isGenderPrompt : Msg → Bool
  | .bot_message _ "gender_question" => true
  | _ => false

/-- Scenario oracle for C1: gender inference returns the unresolved label
`"None"` (one of `GenderService`s documented outputs). -/
def oracleC1 : Oracle :=
  { oracleBase with genderAI := fun _ _ _ => .ok "None" }

/-- The first turn of a fresh session asking about a wedding, with gender
unresolved. -/
def stateC1 : FashionState :=
  initial_state chatSessionInit "I have a wedding next month" "c1" Option.none

/-- C1 counterexample: on a gender-missing turn the detour is taken and no
Occasion/Pairing/Vacation handler runs, but the outbound list renders the
gender question through the generic `FollowUp` form — it contains no
`GenderPrompt` (`bot_message`/`gender_question`) item, contradicting the
claim that a GenderPrompt is emitted. -/
theorem c1_counterexample :
    (runTurn oracleC1 convInit stateC1).result.toOption.map
        FashionState.websocket_messages =
      some [Msg.intent "ctx-user" "recommendation_intro",
            Msg.followup "Help me personalize your recommendations"
              (some [question_gender]) "followup_question"] ∧
    (runTurn oracleC1 convInit stateC1).result.toOption.map
        (fun fs => fs.websocket_messages.any isGenderPrompt) = some false ∧
    (runTurn oracleC1 convInit stateC1).trace =
      [Node.process_conversation, Node.extract_gender, Node.generate_followup,
       Node.prepare_response, Node.process_bot_response] :=
  ⟨rfl, rfl, rfl⟩

/-- Witness for the C1 theorem at the concrete gender-missing turn. -/
theorem c1_gender_gating_witness :
    Node.handle_occasion ∉ (runTurn oracleC1 convInit stateC1).trace ∧
    Node.handle_pairing ∉ (runTurn oracleC1 convInit stateC1).trace ∧
    Node.handle_vacation ∉ (runTurn oracleC1 convInit stateC1).trace ∧
    Node.generate_followup ∈ (runTurn oracleC1 convInit stateC1).trace ∧
    (truthyOptStr (pre_route oracleC1 convInit stateC1).2.1.error_message = false →
      ∀ fs, (runTurn oracleC1 convInit stateC1).result = .ok fs →
        fs.websocket_messages =
          [Msg.intent (pre_route oracleC1 convInit stateC1).2.1.conversation_history
             "recommendation_intro",
           Msg.followup "Help me personalize your recommendations"
             (some [question_gender]) "followup_question"]) :=
  c1_gender_gating oracleC1 convInit stateC1 (.str "None") rfl rfl

/-- A completed `finish_turn` ends in `process_bot_response`. -/
theorem finish_turn_ok_concat (o : Oracle) (cv : ConvState) (tr : List Node)
    (cl : List CallTag) (s : FashionState) (fs : FashionState)
    (h : (finish_turn o cv tr cl s).result = .ok fs) :
    ∃ t, (finish_turn o cv tr cl s).trace = t ++ [Node.process_bot_response] := by
  refine ⟨tr ++ [Node.prepare_response], ?_⟩
  rw [finish_turn_ok_trace o cv tr cl s fs h]
  simp

/-- A completed `followup_then_finish` ends in `process_bot_response`. -/
theorem followup_then_finish_ok_concat (o : Oracle) (cv : ConvState)
    (tr : List Node) (cl : List CallTag) (s : FashionState) (fs : FashionState)
    (h : (followup_then_finish o cv tr cl s).result = .ok fs) :
    ∃ t, (followup_then_finish o cv tr cl s).trace =
      t ++ [Node.process_bot_response] := by
  refine ⟨(tr ++ [Node.generate_followup]) ++ [Node.prepare_response], ?_⟩
  rw [followup_then_finish_ok_trace o cv tr cl s fs h]
  simp

/-- A completed handler dispatch ends in `process_bot_response`. -/
theorem run_routed_ok_concat (o : Oracle) (cv : ConvState) (tr : List Node)
    (cl : List CallTag) (s : FashionState) (r : Route) (fs : FashionState)
    (h : (run_routed o cv tr cl s r).result = .ok fs) :
    ∃ t, (run_routed o cv tr cl s r).trace = t ++ [Node.process_bot_response] := by
  cases r <;> unfold run_routed at h ⊢
  · rw [if_neg (by simp [check_followup_needed])] at h ⊢
    exact finish_turn_ok_concat o cv _ cl _ fs h
  · rw [if_neg (by simp [check_followup_needed])] at h ⊢
    exact finish_turn_ok_concat o cv _ cl _ fs h
  · rw [if_neg (by simp [check_followup_needed])] at h ⊢
    exact finish_turn_ok_concat o cv _ cl _ fs h
  · exact finish_turn_ok_concat o cv _ cl _ fs h
  · by_cases hc : check_followup_style_needed (handle_styling s) = "followup"
    · rw [if_pos hc] at h ⊢
      exact followup_then_finish_ok_concat o cv _ cl _ fs h
    · rw [if_neg hc] at h ⊢
      exact finish_turn_ok_concat o cv _ cl _ fs h

/-- C5 (amended): every turn on which the graph invocation completes executes
`process_bot_response` as its final node, even when a stage recorded an
error; and when the invocation instead raises (an uncaught conditional-edge
failure such as an unroutable `service_mode`), the session boundary catches
it: the session fields persist unchanged and the turn yields exactly one
`Error` message. -/
theorem c5_bot_fold_always_runs_or_session_survives :
    (∀ (o : Oracle) (cv : ConvState) (s0 : FashionState) (fs : FashionState),
      (runTurn o cv s0).result = .ok fs →
      (runTurn o cv s0).trace.getLast? = some Node.process_bot_response) ∧
    (∀ (o : Oracle) (sess : ChatSession) (cv : ConvState)
       (user_input client_id : String) (fd : Option (List (String × PyVal)))
       (e : String),
      (runTurn o cv (initial_state sess user_input client_id fd)).result = .error e →
      (process_with_langgraph o sess cv user_input client_id fd).1 = sess ∧
      (process_with_langgraph o sess cv user_input client_id fd).2.2 =
        [Msg.error ("Sorry, I encountered an error: " ++ e)]) := by
  constructor
  · intro o cv s0 fs h
    have hsplit :
        (∃ t, (runTurn o cv s0).trace = t ++ [Node.process_bot_response]) := by
      unfold runTurn at h ⊢
      rcases hcga : check_gender_available (pre_route o cv s0).2.1 with e | branch <;>
        simp only [hcga] at h ⊢
      · exact absurd h (by simp)
      · by_cases hb : branch = "gender_found"
        · rw [if_pos hb] at h ⊢
          rcases hrt : routeTarget (decide_service_route
              (route_to_service (pre_route o cv s0).2.1)) with e | r <;>
            simp only [hrt] at h ⊢
          · exact absurd h (by simp)
          · exact run_routed_ok_concat o (pre_route o cv s0).1 _ _ _ r fs h
        · rw [if_neg hb] at h ⊢
          exact followup_then_finish_ok_concat o (pre_route o cv s0).1 _ _ _ fs h
    obtain ⟨t, ht⟩ := hsplit
    rw [ht]
    exact List.getLast?_concat t
  · intro o sess cv user_input client_id fd e h
    unfold process_with_langgraph
    rw [h]
    exact ⟨rfl, rfl⟩

/-- Scenario oracle for C5: the classifier returns its own `SuitMe` label,
whose lowercase form `suitme` is not a branch target of the routing edge. -/
def oracleC5 : Oracle :=
  { oracleBase with
    classifyIntentAI := fun _ _ => .ok (intentJson "SuitMe")
    jsonLoads := intentLoads "SuitMe" }

/-- The C5 crashing turn. -/
def stateC5 : FashionState :=
  initial_state chatSessionInit "rate my outfit" "c5" Option.none

/-- C5 counterexample: a `SuitMe` classification makes routing raise, the
turn aborts *without* executing `process_bot_response` (the bot-turn fold is
skipped), and the session receives the single error message. -/
theorem c5_counterexample :
    (runTurn oracleC5 convInit stateC5).trace =
      [Node.process_conversation, Node.extract_gender, Node.route_to_service] ∧
    Node.process_bot_response ∉ (runTurn oracleC5 convInit stateC5).trace ∧
    (runTurn oracleC5 convInit stateC5).result =
      .error "Branch condition returned unknown target: suitme" ∧
    (process_with_langgraph oracleC5 chatSessionInit convInit "rate my outfit"
        "c5" Option.none).2.2 =
      [Msg.error
        "Sorry, I encountered an error: Branch condition returned unknown target: suitme"] := by
  refine ⟨rfl, ?_, rfl, rfl⟩
  rw [show (runTurn oracleC5 convInit stateC5).trace =
    [Node.process_conversation, Node.extract_gender, Node.route_to_service] from rfl]
  decide

/-- Witness for the C5 theorem: a completing benign turn ends in
`process_bot_response`; the crashing `SuitMe` turn leaves the session intact
with a single error message. -/
theorem c5_bot_fold_always_runs_or_session_survives_witness :
    (runTurn oracleBase convInit
        (initial_state chatSessionInit "hello" "c5w" Option.none)).trace.getLast? =
      some Node.process_bot_response ∧
    ((process_with_langgraph oracleC5 chatSessionInit convInit "rate my outfit"
        "c5" Option.none).1 = chatSessionInit ∧
     (process_with_langgraph oracleC5 chatSessionInit convInit "rate my outfit"
        "c5" Option.none).2.2 =
       [Msg.error ("Sorry, I encountered an error: " ++
         "Branch condition returned unknown target: suitme")]) := by
  constructor
  · obtain ⟨fs, h⟩ : ∃ fs,
        (runTurn oracleBase convInit
          (initial_state chatSessionInit "hello" "c5w" Option.none)).result = .ok fs :=
      ⟨_, rfl⟩
    exact c5_bot_fold_always_runs_or_session_survives.1 oracleBase convInit _ fs h
  · exact c5_bot_fold_always_runs_or_session_survives.2 oracleC5 chatSessionInit
      convInit "rate my outfit" "c5" Option.none
      "Branch condition returned unknown target: suitme" rfl

/-- `finish_turn` only appends to the call log it is given. -/
theorem finish_turn_calls (o : Oracle) (cv : ConvState) (tr : List Node)
    (cl : List CallTag) (s : FashionState) :
    ∃ rest, (finish_turn o cv tr cl s).calls = cl ++ rest := by
  unfold finish_turn
  rcases hp : prepare_response s with e | s1
  · exact ⟨[], by simp⟩
  · exact ⟨(process_bot_response o cv s1).2.2, rfl⟩

/-- `followup_then_finish` only appends to the call log it is given. -/
theorem followup_then_finish_calls (o : Oracle) (cv : ConvState) (tr : List Node)
    (cl : List CallTag) (s : FashionState) :
    ∃ rest, (followup_then_finish o cv tr cl s).calls = cl ++ rest := by
  unfold followup_then_finish
  rcases hg : generate_followup s with e | s1
  · exact ⟨[], by simp⟩
  · exact finish_turn_calls o cv _ cl s1

/-- Handler dispatch only appends to the call log it is given. -/
theorem run_routed_calls (o : Oracle) (cv : ConvState) (tr : List Node)
    (cl : List CallTag) (s : FashionState) (r : Route) :
    ∃ rest, (run_routed o cv tr cl s r).calls = cl ++ rest := by
  cases r <;> unfold run_routed
  · rw [if_neg (by simp [check_followup_needed])]
    exact finish_turn_calls o cv _ cl _
  · rw [if_neg (by simp [check_followup_needed])]
    exact finish_turn_calls o cv _ cl _
  · rw [if_neg (by simp [check_followup_needed])]
    exact finish_turn_calls o cv _ cl _
  · exact finish_turn_calls o cv _ cl _
  · by_cases hc : check_followup_style_needed (handle_styling s) = "followup"
    · rw [if_pos hc]
      exact followup_then_finish_calls o cv _ cl _
    · rw [if_neg hc]
      exact finish_turn_calls o cv _ cl _

/-- Every turn's call log starts with the calls of the two entry nodes. -/
theorem runTurn_calls (o : Oracle) (cv : ConvState) (s0 : FashionState) :
    ∃ rest, (runTurn o cv s0).calls = (pre_route o cv s0).2.2 ++ rest := by
  unfold runTurn
  rcases hcga : check_gender_available (pre_route o cv s0).2.1 with e | branch <;>
    simp only [hcga]
  · exact ⟨[], by simp⟩
  · by_cases hb : branch = "gender_found"
    · rw [if_pos hb]
      rcases hrt : routeTarget (decide_service_route
          (route_to_service (pre_route o cv s0).2.1)) with e | r <;> simp only [hrt]
      · exact ⟨[], by simp⟩
      · exact run_routed_calls o (pre_route o cv s0).1 _ _ _ r
    · rw [if_neg hb]
      exact followup_then_finish_calls o (pre_route o cv s0).1 _ _ _

/-- On a turn started from a per-turn `user_info` (which always carries the
`gender` key), `process_conversation` performs exactly the user-turn
summarization call followed by the classification call. -/
theorem process_conversation_calls (o : Oracle) (cv : ConvState)
    (sess : ChatSession) (user_input client_id : String)
    (fd : Option (List (String × PyVal))) :
    (process_conversation o cv
        (initial_state sess user_input client_id fd)).2.2 =
      [CallTag.summarize_user, CallTag.classify_intent] := by
  obtain ⟨v, hv⟩ := initial_user_info_gender fd
  simp only [process_conversation, initial_state, pyDictGet, hv]
  rcases hpt : (processTurn o cv user_input v).2 with e | p
  · simp [hpt]
  · obtain ⟨intent, context⟩ := p
    rcases hl : pyLower intent with e | m <;> simp [hpt, hl]

/-- C6 (amended): out-of-band follow-up answers are merged by key with
last-write-wins into the fresh per-turn slot dict (over the base
`{gender: None}`); but the resumption is not direct — the orchestrator re-runs
the entire workflow on a synthetic free-text query, so the summarization and
intent-classification calls both occur on this path. -/
theorem c6_followup_merge_and_full_pipeline :
    (∀ (fd : List (String × PyVal)) (k : String), fd ≠ [] →
      pyLookup (initial_user_info (some fd)) k =
        match lastValue fd k with
        | some v => some v
        | Option.none => pyLookup [("gender", PyVal.none)] k) ∧
    (∀ (o : Oracle) (sess : ChatSession) (cv : ConvState) (client_id : String)
       (fd : List (String × PyVal)),
      CallTag.summarize_user ∈
        (runTurn o cv
          (initial_state sess (followup_query fd) client_id (some fd))).calls ∧
      CallTag.classify_intent ∈
        (runTurn o cv
          (initial_state sess (followup_query fd) client_id (some fd))).calls) := by
  constructor
  · intro fd k hne
    have hemp : fd.isEmpty = false := by
      cases fd with
      | nil => exact absurd rfl hne
      | cons a l => rfl
    simp only [initial_user_info, hemp, Bool.false_eq_true, if_false]
    exact pyUpdate_lookup fd [("gender", PyVal.none)] k
  · intro o sess cv client_id fd
    obtain ⟨rest, hrest⟩ :=
      runTurn_calls o cv (initial_state sess (followup_query fd) client_id (some fd))
    have hpre : (pre_route o cv
        (initial_state sess (followup_query fd) client_id (some fd))).2.2 =
        [CallTag.summarize_user, CallTag.classify_intent] ++
          (extract_gender o (process_conversation o cv
            (initial_state sess (followup_query fd) client_id (some fd))).2.1).2 := by
      simp only [pre_route]
      rw [process_conversation_calls]
    rw [hrest, hpre]
    constructor <;> simp

/-- Scenario oracle for C6/C7: gender inference confirms the submitted
`Female` answer; classification and the folds behave benignly. -/
def oracleC6 : Oracle :=
  { oracleBase with genderAI := fun _ _ _ => .ok "Female" }

/-- The submitted follow-up form `{gender: "Female"}`. -/
def fdC6 : List (String × PyVal) := [("gender", .str "Female")]

/-- C6 counterexample: on the follow-up submission turn the full pipeline
runs — the call log is exactly one summarization, one classification, one
gender inference and one bot-turn fold — contradicting the claim that no
classification and no summarization call is made on this path. -/
theorem c6_counterexample :
    (runTurn oracleC6 convInit
        (initial_state chatSessionInit (followup_query fdC6) "c6" (some fdC6))).calls =
      [CallTag.summarize_user, CallTag.classify_intent, CallTag.infer_gender,
       CallTag.summarize_bot] ∧
    CallTag.classify_intent ∈
      (runTurn oracleC6 convInit
        (initial_state chatSessionInit (followup_query fdC6) "c6" (some fdC6))).calls := by
  refine ⟨rfl, ?_⟩
  rw [show (runTurn oracleC6 convInit
      (initial_state chatSessionInit (followup_query fdC6) "c6" (some fdC6))).calls =
    [CallTag.summarize_user, CallTag.classify_intent, CallTag.infer_gender,
     CallTag.summarize_bot] from rfl]
  decide

/-- Witness for the C6 theorem: the merge semantics at the concrete form
`{gender: "Female"}` and the pipeline calls at the concrete follow-up turn. -/
theorem c6_followup_merge_and_full_pipeline_witness :
    pyLookup (initial_user_info (some fdC6)) "gender" =
      (match lastValue fdC6 "gender" with
       | some v => some v
       | Option.none => pyLookup [("gender", PyVal.none)] "gender") ∧
    CallTag.summarize_user ∈
      (runTurn oracleC6 convInit
        (initial_state chatSessionInit (followup_query fdC6) "c6" (some fdC6))).calls ∧
    CallTag.classify_intent ∈
      (runTurn oracleC6 convInit
        (initial_state chatSessionInit (followup_query fdC6) "c6" (some fdC6))).calls :=
  ⟨c6_followup_merge_and_full_pipeline.1 fdC6 "gender" (by simp [fdC6]),
   c6_followup_merge_and_full_pipeline.2 oracleC6 chatSessionInit convInit "c6" fdC6⟩

/-- C7 (amended): the slot store does not persist across turns — every
free-text turn rebuilds `user_info` as exactly `{gender: None}`, whatever the
session's earlier turns had filled in (answers only enter the dict of the
single turn whose `followup_data` carries them, by last-write-wins merge). -/
theorem c7_slots_reset_each_turn (sess : ChatSession)
    (user_input client_id : String) :
    (initial_state sess user_input client_id Option.none).user_info =
      [("gender", PyVal.none)] := rfl

/-- C7 counterexample: a follow-up turn ends with `user_info` holding
`gender = "Female"`, yet the next turn of the same session starts from
`{gender: None}` — the filled slot was reset without any contradicting
input. -/
theorem c7_counterexample :
    (runTurn oracleC6 convInit
        (initial_state chatSessionInit (followup_query fdC6) "c7"
          (some fdC6))).result.toOption.map FashionState.user_info =
      some [("gender", PyVal.str "Female")] ∧
    (initial_state
        (websocket_followup_turn oracleC6 chatSessionInit convInit "c7" fdC6).1
        "what about shoes?" "c7" Option.none).user_info =
      [("gender", PyVal.none)] :=
  ⟨rfl, rfl⟩

/-- One location object of the popular-locations JSON document used in the
C8 scenario. -/
def locJsonEntry (name : String) : String :=
  "\x7b\x22name\x22: \x22" ++ name ++
  "\x22, \x22weather\x22: \x22Hot and sunny\x22, \x22outfit\x22: \x7b\x22categories\x22: [\x22Dresses\x22], \x22style_palette\x22: [\x22resort wear\x22]\x7d\x7d"

/-- The popular-locations completion for Goa, with the three locations the
prompt demands (vacationService.py:202 asks for exactly 3). -/
def locationsJson : String :=
  "\x7b\x22popular_locations\x22: [" ++
  joinSep ", " [locJsonEntry "Baga Beach", locJsonEntry "Old Goa Churches",
                locJsonEntry "Dudhsagar Falls"] ++ "]\x7d"

/-- The parse of one location object. -/
def locEntry (name : String) : PyVal :=
  .dict [("name", .str name), ("weather", .str "Hot and sunny"),
         ("outfit", .dict [("categories", .list [.str "Dresses"]),
                           ("style_palette", .list [.str "resort wear"])])]

/-- The parse of `locationsJson` (what `json.loads` returns on it). -/
def locationsParsed : PyVal :=
  .dict [("popular_locations",
          .list [locEntry "Baga Beach", locEntry "Old Goa Churches",
                 locEntry "Dudhsagar Falls"])]

/-- Scenario oracle for C8: a clean Vacation turn — the classifier labels the
turn `Vacation`, the destination extractor answers `goa`, and the
location/tag/complement/dialogue calls all succeed with well-formed data. -/
def oracleC8 : Oracle :=
  { oracleBase with
    classifyIntentAI := fun _ _ => .ok (intentJson "Vacation")
    jsonLoads := fun s =>
      if s = intentJson "Vacation" then
        .ok (.dict [("reasoning", .str "r"), ("intent", .str "Vacation")])
      else if s = locationsJson then .ok locationsParsed
      else .error "Expecting value: line 1 column 1 (char 0)"
    vacationLocationsAI := fun _ _ _ => .ok locationsJson }

/-- The C8 turn. -/
def stateC8 : FashionState :=
  initial_state chatSessionInit "Planning a trip to Goa" "c8" Option.none

set_option maxRecDepth 8192

/-- C8: on a fully successful Vacation pipeline run for Goa,
`get_vacation_recommendation` returns a *list of three* per-location
`{name, products, dialogue}` dicts — not the single `(dialogue, products)`
pair its own caller `_handle_vacation` unpacks — so the handler's
`dialogue, products = ...` raises `ValueError` and the turn degrades to an
`Error` message instead of storing a response and recommendations. -/
theorem c8_vacation_pair_contract_violated :
    (match get_vacation_recommendation oracleC8 "Planning a trip to Goa" "ctx-user" with
     | .ok (.list l) => some l.length
     | _ => Option.none) = some 3 ∧
    (runTurn oracleC8 convInit stateC8).result.toOption.map
        (fun fs => (fs.error_message, fs.websocket_messages)) =
      some (some "Error in vacation handling: too many values to unpack (expected 2)",
            [Msg.intent "ctx-user" "recommendation_intro",
             Msg.error "Error in vacation handling: too many values to unpack (expected 2)"]) :=
  ⟨rfl, rfl⟩
